import Mathlib

/-!
# Formal model of the THSR-Sniper booking-scheduler core

A shallow embedding of `src/thsr_py/scheduler.py` (task entity, state
machine, conflict merge, scan cycle, cleanup sweep, task creation
validation), with theorems settling the specification claims.

Modelling conventions:
* Python `datetime` instants are modelled as `Int` UTC epoch seconds; the
  system only ever constructs timezone-aware UTC datetimes.
* Python calendar dates (`datetime.date`) are `Date` triples ordered
  lexicographically, matching Python date comparison.
* `datetime.strptime(s, "%Y/%m/%d")` is modelled by `strptimeYmd`,
  following CPython `_strptime`: `%Y` is exactly four digits, `%m` is the
  regex alternation `1[0-2]|0[1-9]|[1-9]` (with backtracking against the
  rest of the pattern), `%d` is `3[01]|[12]\d|0[1-9]|[1-9]`; leftover
  input raises (`unconverted data remains`), and `datetime(y, m, d)`
  validates the calendar date.
* Python `Optional` values are `Option`; Python unbounded `int` is `Int`.
* The task dictionary used for storage is `TaskRecord`; ISO timestamp
  strings are modelled structurally by `WireTime` (instant plus timezone
  suffix), keeping the `'+00:00' ↔ 'Z'` rewriting of the code visible.
-/

set_option maxHeartbeats 1000000

namespace THSR

/-- Status enum of `BookingStatus` in `scheduler.py`. -/
inductive BookingStatus where
  | pending
  | running
  | success
  | failed
  | expired
  | cancelled
  | deleted
  | waiting
deriving DecidableEq, Repr

/-- The `.value` wire string of each status, as in the Python `Enum`. -/
def BookingStatus.value : BookingStatus → String
  | .pending => "pending"
  | .running => "running"
  | .success => "success"
  | .failed => "failed"
  | .expired => "expired"
  | .cancelled => "cancelled"
  | .deleted => "deleted"
  | .waiting => "waiting"

/-- `BookingStatus(s)` in Python: look a wire string up in the enum;
an unknown string raises (here: `none`). -/
def BookingStatus.ofValue (s : String) : Option BookingStatus :=
  if s = "pending" then some .pending
  else if s = "running" then some .running
  else if s = "success" then some .success
  else if s = "failed" then some .failed
  else if s = "expired" then some .expired
  else if s = "cancelled" then some .cancelled
  else if s = "deleted" then some .deleted
  else if s = "waiting" then some .waiting
  else none

/-- A Python `datetime.date`: a calendar day. -/
structure Date where
  year : Nat
  month : Nat
  day : Nat
deriving DecidableEq, Repr

/-- Python date comparison `a < b` (lexicographic on year, month, day). -/
def Date.lt (a b : Date) : Bool :=
  a.year < b.year ||
    (a.year = b.year &&
      (a.month < b.month || (a.month = b.month && a.day < b.day)))

/-- Python date comparison `a <= b`. -/
def Date.le (a b : Date) : Bool :=
  a.year < b.year ||
    (a.year = b.year &&
      (a.month < b.month || (a.month = b.month && a.day ≤ b.day)))

/-- Digit value of an ASCII digit character. -/
def dval (c : Char) : Nat := c.toNat - 48

/-- Gregorian leap year, as validated by `datetime`. -/
def isLeapYear (y : Nat) : Bool := (y % 4 = 0 && ¬ y % 100 = 0) || y % 400 = 0

/-- Number of days in a month, as validated by `datetime`. -/
def daysInMonth (y m : Nat) : Nat :=
  if m = 2 then (if isLeapYear y then 29 else 28)
  else if m = 4 || m = 6 || m = 9 || m = 11 then 30
  else 31

/-- The calendar validation performed by `datetime(year, month, day)`:
`MINYEAR ≤ year` (four regex digits already bound it by 9999) and the day
exists in the month.  Month range 1–12 and day ≥ 1 are guaranteed by the
`strptime` regex. -/
def validDate (y m d : Nat) : Bool := 1 ≤ y && d ≤ daysInMonth y m

/-- `%Y` of `_strptime`: exactly four digits. -/
def matchYear : List Char → Option (Nat × List Char)
  | a :: b :: c :: d :: rest =>
    if a.isDigit && b.isDigit && c.isDigit && d.isDigit then
      some (dval a * 1000 + dval b * 100 + dval c * 10 + dval d, rest)
    else none
  | _ => none

/-- `%d` of `_strptime`: regex `3[01]|[12]\d|0[1-9]|[1-9]`, alternatives
tried in order, first fit kept (nothing follows `%d` in the pattern, so
no backtracking can revisit this choice). -/
def matchDay : List Char → Option (Nat × List Char)
  | [] => none
  | c :: rest =>
    if c = '3' then
      match rest with
      | c2 :: rest2 =>
        if c2 = '0' || c2 = '1' then some (30 + dval c2, rest2) else some (3, rest)
      | [] => some (3, [])
    else if c = '1' || c = '2' then
      match rest with
      | c2 :: rest2 =>
        if c2.isDigit then some (dval c * 10 + dval c2, rest2) else some (dval c, rest)
      | [] => some (dval c, [])
    else if c = '0' then
      match rest with
      | c2 :: rest2 => if c2.isDigit && ¬ c2 = '0' then some (dval c2, rest2) else none
      | [] => none
    else if c.isDigit then some (dval c, rest)
    else none

/-- The literal `/` followed by `%d`. -/
def matchSlashDay : List Char → Option (Nat × List Char)
  | '/' :: rest => matchDay rest
  | _ => none

/-- `%m` of `_strptime` (regex `1[0-2]|0[1-9]|[1-9]`) followed by `/%d`.
A two-digit month is tried first; if the remainder of the pattern then
fails to match, the engine backtracks to the one-digit alternative. -/
def matchMonthDay (cs : List Char) : Option (Nat × Nat × List Char) :=
  match cs with
  | [] => none
  | c :: rest =>
    let twoDigit : Option (Nat × List Char) :=
      match rest with
      | c2 :: rest2 =>
        if c = '1' then
          if c2 = '0' || c2 = '1' || c2 = '2' then some (10 + dval c2, rest2) else none
        else if c = '0' then
          if c2.isDigit && ¬ c2 = '0' then some (dval c2, rest2) else none
        else none
      | [] => none
    let oneDigit : Option (Nat × Nat × List Char) :=
      if c.isDigit && ¬ c = '0' then
        match matchSlashDay rest with
        | some (d, leftover) => some (dval c, d, leftover)
        | none => none
      else none
    match twoDigit with
    | some (m, rest2) =>
      match matchSlashDay rest2 with
      | some (d, leftover) => some (m, d, leftover)
      | none => oneDigit
    | none => oneDigit

/-- `datetime.strptime(s, "%Y/%m/%d").date()`: `none` models the
`ValueError` raised on a format mismatch, leftover input, or an invalid
calendar date. -/
def strptimeYmd (s : String) : Option Date :=
  match matchYear s.data with
  | some (y, rest) =>
    match rest with
    | '/' :: rest2 =>
      match matchMonthDay rest2 with
      | some (m, d, leftover) =>
        if leftover = [] && validDate y m d then some ⟨y, m, d⟩ else none
      | none => none
    | _ => none
  | none => none

/-- The `BookingTask` dataclass of `scheduler.py`.  Instants (`created_at`,
`last_attempt`) are UTC epoch seconds. -/
structure BookingTask where
  id : String
  from_station : Int
  to_station : Int
  date : String
  user_id : Option String := none
  adult_cnt : Option Int := none
  student_cnt : Option Int := none
  child_cnt : Option Int := none
  senior_cnt : Option Int := none
  disabled_cnt : Option Int := none
  time : Option Int := none
  train_index : Option Int := none
  seat_prefer : Option Int := none
  class_type : Option Int := none
  personal_id : Option String := none
  use_membership : Option Bool := none
  no_ocr : Bool := false
  interval_minutes : Int := 5
  max_attempts : Option Int := none
  status : BookingStatus := .pending
  created_at : Int := 0
  last_attempt : Option Int := none
  attempts : Int := 0
  success_pnr : Option String := none
  error_message : Option String := none
deriving DecidableEq, Repr

/-- `BookingTask.is_expired`: parse the travel date; on success, compare
`datetime.now(timezone.utc).date() > booking_date.date()`; a `ValueError`
(malformed date) yields `False`.  `today` is the current UTC calendar day. -/
def BookingTask.is_expired (t : BookingTask) (today : Date) : Bool :=
  match strptimeYmd t.date with
  | some d => Date.lt d today
  | none => false

/-- `BookingTask.should_stop`: expired, or `max_attempts` truthy
(set and nonzero) with `attempts >= max_attempts`. -/
def BookingTask.should_stop (t : BookingTask) (today : Date) : Bool :=
  if t.is_expired today then true
  else
    match t.max_attempts with
    | some m => decide (¬ m = 0) && decide (t.attempts ≥ m)
    | none => false

/-- The terminal outcome statuses that conflict resolution always preserves:
`[BookingStatus.SUCCESS, BookingStatus.CANCELLED, BookingStatus.DELETED]`. -/
def isTerminalOutcome (s : BookingStatus) : Bool :=
  s = .success || s = .cancelled || s = .deleted

/-- The per-task merge rule of `BookingScheduler._save_tasks_safe`, applied
when `task_id` exists both in memory (`mem`, the snapshot taken before the
forced reload) and on disk (`disk`, the freshly loaded copy):
a terminal-outcome in-memory task always wins; otherwise the in-memory task
wins when it has a strictly later `last_attempt` (both set) or strictly more
attempts; otherwise the disk copy is kept. -/
def mergeTask (mem disk : BookingTask) : BookingTask :=
  if isTerminalOutcome mem.status then mem
  else if (match mem.last_attempt, disk.last_attempt with
           | some a, some b => decide (a > b)
           | _, _ => false) || decide (mem.attempts > disk.attempts) then mem
  else disk

/-- The in-memory task map `self.tasks`, as an association list keyed by id
(first binding wins, as in a Python dict with unique keys). -/
abbrev TaskMap := List (String × BookingTask)

/-- Dict lookup `self.tasks.get(task_id)`. -/
def lookupTask : TaskMap → String → Option BookingTask
  | [], _ => none
  | (k, t) :: rest, tid => if k = tid then some t else lookupTask rest tid

/-- Dict update `self.tasks[task_id] = task` for an existing key. -/
def updateTask : TaskMap → String → BookingTask → TaskMap
  | [], _, _ => []
  | (k, t) :: rest, tid, newT =>
    if k = tid then (k, newT) :: rest else (k, t) :: updateTask rest tid newT

/-- Does the ownership check of `cancel_task`/`remove_task` reject the call?
Python: `user_id is not None and task.user_id != user_id`. -/
def ownerMismatch (user_id : Option String) (t : BookingTask) : Bool :=
  match user_id with
  | some uid => decide (¬ t.user_id = some uid)
  | none => false

/-- `BookingScheduler.cancel_task` after its reload: if the id is unknown,
return `False`; if the ownership check fails, return `False`; otherwise set
the status to CANCELLED (unconditionally) and return `True`.  The returned
map is what the subsequent `_save_tasks` persists. -/
def cancel_task (tasks : TaskMap) (task_id : String) (user_id : Option String) :
    TaskMap × Bool :=
  match lookupTask tasks task_id with
  | none => (tasks, false)
  | some task =>
    if ownerMismatch user_id task then (tasks, false)
    else (updateTask tasks task_id { task with status := .cancelled }, true)

/-- `BookingScheduler.remove_task`: same shape as `cancel_task`, but marks
the task DELETED (soft delete). -/
def remove_task (tasks : TaskMap) (task_id : String) (user_id : Option String) :
    TaskMap × Bool :=
  match lookupTask tasks task_id with
  | none => (tasks, false)
  | some task =>
    if ownerMismatch user_id task then (tasks, false)
    else (updateTask tasks task_id { task with status := .deleted }, true)

/-- Should `_cleanup_deleted_tasks` purge this task?  Python:
`task.status == BookingStatus.DELETED and task.last_attempt and
task.last_attempt < deleted_cutoff` with `deleted_cutoff = now - 1 hour`
(a `None` `last_attempt` is falsy and blocks the purge). -/
def purgeDeleted (now : Int) (t : BookingTask) : Bool :=
  decide (t.status = .deleted) &&
    (match t.last_attempt with
     | some la => decide (la < now - 3600)
     | none => false)

/-- `BookingScheduler._cleanup_deleted_tasks`: on the first call only record
the time; within an hour of the previous sweep do nothing; otherwise remove
every task `purgeDeleted` selects.  Returns the surviving map and the new
`_last_cleanup_time`. -/
def cleanup_deleted_tasks (now : Int) (last_cleanup : Option Int)
    (tasks : TaskMap) : TaskMap × Int :=
  match last_cleanup with
  | none => (tasks, now)
  | some lc =>
    if now - lc < 3600 then (tasks, lc)
    else (tasks.filter (fun kv => ¬ purgeDeleted now kv.2), now)

/-- One task's pass through `BookingScheduler._process_tasks`, up to (and
including) the dueness decision: returns the task as mutated by the scan and
whether it is handed to `_execute_booking_task`.  `today` is the current UTC
calendar day, `now` the current UTC instant, and `salesOpen` the
`is_ticket_sales_open` oracle on the task's date string (its own clock and
date arithmetic are external to this model). -/
def scan_step (today : Date) (now : Int) (salesOpen : String → Bool)
    (task : BookingTask) : BookingTask × Bool :=
  if isTerminalOutcome task.status then (task, false)
  else if task.is_expired today then ({ task with status := .expired }, false)
  else if task.should_stop today then
    ({ task with status := .failed,
                 error_message := some "Maximum attempts reached" }, false)
  else if ¬ salesOpen task.date then
    (if ¬ task.status = .waiting then { task with status := .waiting } else task,
     false)
  else
    let task1 :=
      if task.status = .waiting then { task with status := .pending } else task
    let should_run :=
      match task1.last_attempt with
      | none => true
      | some la => decide (now - la ≥ task1.interval_minutes * 60)
    (task1, should_run)

/-- The pre-execution mutation of `_execute_booking_task`: set RUNNING,
stamp `last_attempt`, increment `attempts` — this is the state handed to
`_save_tasks` before `run_booking_flow` is invoked. -/
def execute_pre (now : Int) (task : BookingTask) : BookingTask :=
  { task with status := .running, last_attempt := some now,
              attempts := task.attempts + 1 }

/-- Outcome of the external booking flow as observed by
`_execute_booking_task`: a PNR line was found in the captured output (with
the ANSI-stripped code), no PNR was found (with the extracted error text),
or the flow raised (with the exception text). -/
inductive FlowResult where
  | pnrFound (pnr : String)
  | noPnr (errMsg : String)
  | raised (errMsg : String)
deriving DecidableEq, Repr

/-- `_execute_booking_task`: returns the snapshot persisted before the
collaborator call and the final task persisted in the `finally` block. -/
def execute_booking_task (now : Int) (task : BookingTask) (result : FlowResult) :
    BookingTask × BookingTask :=
  let pre := execute_pre now task
  let final :=
    match result with
    | .pnrFound pnr => { pre with success_pnr := some pnr, status := .success }
    | .noPnr msg =>
      let t := { pre with error_message := some (msg.take 500) }
      if ¬ t.status = .success then { t with status := .pending } else t
    | .raised msg =>
      if ¬ pre.status = .success then
        { pre with error_message := some (msg.take 500), status := .pending }
      else pre
  (pre, final)

/-- One full cycle of `_process_tasks` for a single task: the scan step,
then — when due — the execution driver's final state. -/
def process_one (today : Date) (now : Int) (salesOpen : String → Bool)
    (result : FlowResult) (task : BookingTask) : BookingTask :=
  let step := scan_step today now salesOpen task
  if step.2 then (execute_booking_task now step.1 result).2 else step.1

/-- The keyword arguments of `create_booking_task` in `scheduler.py`. -/
structure CreateParams where
  from_station : Int
  to_station : Int
  date : String
  personal_id : String
  use_membership : Option Bool
  user_id : Option String := none
  adult_cnt : Option Int := none
  student_cnt : Option Int := none
  child_cnt : Option Int := none
  senior_cnt : Option Int := none
  disabled_cnt : Option Int := none
  time : Option Int := none
  train_index : Option Int := none
  seat_prefer : Option Int := none
  class_type : Option Int := none
  interval_minutes : Int := 5
  max_attempts : Option Int := none
  no_ocr : Bool := false
deriving Repr

/-- Python `str.isspace` on the ASCII whitespace characters stripped by
`str.strip()`. -/
def isPySpace (c : Char) : Bool :=
  c = ' ' || c = '\t' || c = '\n' || c = '\r' ||
    c = Char.ofNat 11 || c = Char.ofNat 12

/-- Python `str.strip()`: drop leading and trailing whitespace. -/
def pyStrip (s : String) : String :=
  ⟨((s.data.dropWhile isPySpace).reverse.dropWhile isPySpace).reverse⟩

/-- Python `str.upper()` (ASCII case mapping suffices for this model). -/
def pyUpper (s : String) : String :=
  ⟨s.data.map Char.toUpper⟩

/-- A bound on an optional parameter: Python
`x is not None and not <ok x>` inverted — the check passes when the value
is absent or satisfies the bound. -/
def optOk (o : Option Int) (f : Int → Bool) : Bool :=
  match o with
  | some c => f c
  | none => true

/-- `len(STATION_MAP)` in `schema.py`. -/
def stationCount : Int := 12

/-- `len(TIME_TABLE)` in `schema.py`. -/
def timeTableCount : Int := 38

/-- `create_booking_task`: the validation sequence of `scheduler.py`,
performed in source order before any `BookingTask` is constructed; the
first failing check raises `ValueError` (here `.error`).  `fresh_id`
stands for the generated `uuid4` and `nowT` for the creation instant. -/
def create_booking_task (today : Date) (nowT : Int) (fresh_id : String)
    (p : CreateParams) : Except String BookingTask :=
  if pyStrip p.personal_id = "" then
    .error "Personal ID is required for booking"
  else if p.use_membership = none then
    .error "Membership preference must be specified (True/False)"
  else if ¬ (1 ≤ p.from_station ∧ p.from_station ≤ stationCount) then
    .error "Invalid from_station"
  else if ¬ (1 ≤ p.to_station ∧ p.to_station ≤ stationCount) then
    .error "Invalid to_station"
  else if p.from_station = p.to_station then
    .error "Departure and arrival stations cannot be the same"
  else
    match strptimeYmd p.date with
    | none => .error "Invalid date format (use YYYY/MM/DD)"
    | some booking_date =>
      if Date.lt booking_date today then
        .error "Booking date must be in the future"
      else
        let total_tickets :=
          p.adult_cnt.getD 0 + p.student_cnt.getD 0 + p.child_cnt.getD 0 +
            p.senior_cnt.getD 0 + p.disabled_cnt.getD 0
        if total_tickets = 0 then
          .error "At least one ticket must be specified"
        else if total_tickets > 10 then
          .error "Total ticket count cannot exceed 10"
        else if ¬ optOk p.adult_cnt (fun c => decide (0 ≤ c) && decide (c ≤ 10)) then
          .error "Adult ticket count must be 0-10"
        else if ¬ optOk p.student_cnt (fun c => decide (0 ≤ c) && decide (c ≤ 10)) then
          .error "Student ticket count must be 0-10"
        else if ¬ optOk p.child_cnt (fun c => decide (0 ≤ c) && decide (c ≤ 10)) then
          .error "Child ticket count must be 0-10"
        else if ¬ optOk p.senior_cnt (fun c => decide (0 ≤ c) && decide (c ≤ 10)) then
          .error "Senior ticket count must be 0-10"
        else if ¬ optOk p.disabled_cnt (fun c => decide (0 ≤ c) && decide (c ≤ 10)) then
          .error "Disabled ticket count must be 0-10"
        else if ¬ optOk p.time (fun ti => decide (1 ≤ ti) && decide (ti ≤ timeTableCount)) then
          .error "Invalid time slot"
        else if ¬ optOk p.train_index (fun ix => decide (1 ≤ ix)) then
          .error "Invalid train index"
        else if ¬ optOk p.seat_prefer (fun sp => decide (sp = 0) || decide (sp = 1) || decide (sp = 2)) then
          .error "Invalid seat preference"
        else if ¬ optOk p.class_type (fun ct => decide (ct = 0) || decide (ct = 1)) then
          .error "Invalid class type"
        else if p.interval_minutes < 1 then
          .error "Interval must be at least 1 minute"
        else if p.interval_minutes > 60 then
          .error "Interval should not exceed 60 minutes"
        else
          let pid := pyUpper (pyStrip p.personal_id)
          if ¬ pid.length = 10 then
            .error "Personal ID must be 10 characters long"
          else
            .ok {
              id := fresh_id
              from_station := p.from_station
              to_station := p.to_station
              date := p.date
              user_id := p.user_id
              personal_id := some pid
              use_membership := p.use_membership
              adult_cnt := p.adult_cnt
              student_cnt := p.student_cnt
              child_cnt := p.child_cnt
              senior_cnt := p.senior_cnt
              disabled_cnt := p.disabled_cnt
              time := p.time
              train_index := p.train_index
              seat_prefer := p.seat_prefer
              class_type := p.class_type
              interval_minutes := p.interval_minutes
              max_attempts := p.max_attempts
              no_ocr := p.no_ocr
              created_at := nowT }

/-- Timezone suffix of an ISO-8601 datetime string as handled by
`to_dict`/`from_dict`: a trailing `Z`, a trailing `+00:00`, or no timezone
designator at all. -/
inductive TzSuffix where
  | z
  | utcOffset
  | naive
deriving DecidableEq, Repr

/-- Structural model of the ISO-8601 string for a datetime: the instant it
denotes, plus which timezone suffix the string carries. -/
structure WireTime where
  instant : Int
  suffix : TzSuffix
deriving DecidableEq, Repr

/-- `dt.isoformat()` for the timezone-aware UTC datetimes the system
constructs: the string ends in `+00:00`. -/
def isoformatUtc (t : Int) : WireTime := ⟨t, .utcOffset⟩

/-- `.replace('+00:00', 'Z')` applied to an ISO string. -/
def replaceOffsetWithZ (w : WireTime) : WireTime :=
  match w.suffix with
  | .utcOffset => ⟨w.instant, .z⟩
  | s => ⟨w.instant, s⟩

/-- The suffix normalisation of `from_dict`: a trailing `Z` is rewritten to
`+00:00`; a string with neither `+` nor `Z` gets `+00:00` appended (absent
offset is treated as UTC); a `+00:00` string is left alone. -/
def normalizeWire (w : WireTime) : WireTime :=
  match w.suffix with
  | .z => ⟨w.instant, .utcOffset⟩
  | .naive => ⟨w.instant, .utcOffset⟩
  | .utcOffset => w

/-- `datetime.fromisoformat` on a string with an explicit UTC offset: the
denoted instant. -/
def fromisoformat (w : WireTime) : Int := w.instant

/-- The task dictionary as emitted by `BookingTask.to_dict` (every key
present; `Option` is JSON `null`). -/
structure TaskRecord where
  id : String
  from_station : Int
  to_station : Int
  date : String
  user_id : Option String
  adult_cnt : Option Int
  student_cnt : Option Int
  child_cnt : Option Int
  senior_cnt : Option Int
  disabled_cnt : Option Int
  time : Option Int
  train_index : Option Int
  seat_prefer : Option Int
  class_type : Option Int
  personal_id : Option String
  use_membership : Option Bool
  no_ocr : Bool
  interval_minutes : Int
  max_attempts : Option Int
  status : String
  created_at : WireTime
  last_attempt : Option WireTime
  attempts : Int
  success_pnr : Option String
  error_message : Option String
deriving DecidableEq, Repr

/-- `BookingTask.to_dict`: serialize every field; the status becomes its
wire string, timestamps become ISO strings with `+00:00` rewritten to `Z`,
and a `None` `last_attempt` becomes `null`. -/
def BookingTask.to_dict (t : BookingTask) : TaskRecord :=
  { id := t.id
    from_station := t.from_station
    to_station := t.to_station
    date := t.date
    user_id := t.user_id
    adult_cnt := t.adult_cnt
    student_cnt := t.student_cnt
    child_cnt := t.child_cnt
    senior_cnt := t.senior_cnt
    disabled_cnt := t.disabled_cnt
    time := t.time
    train_index := t.train_index
    seat_prefer := t.seat_prefer
    class_type := t.class_type
    personal_id := t.personal_id
    use_membership := t.use_membership
    no_ocr := t.no_ocr
    interval_minutes := t.interval_minutes
    max_attempts := t.max_attempts
    status := t.status.value
    created_at := replaceOffsetWithZ (isoformatUtc t.created_at)
    last_attempt := t.last_attempt.map (fun la => replaceOffsetWithZ (isoformatUtc la))
    attempts := t.attempts
    success_pnr := t.success_pnr
    error_message := t.error_message }

/-- `BookingTask.from_dict`: rebuild a task from the stored record.
`BookingStatus(...)` raises on an unknown status string (`none` here);
timestamp strings are normalised (`Z`/absent offset to `+00:00`) and parsed
with `fromisoformat`. -/
def BookingTask.from_dict (r : TaskRecord) : Option BookingTask :=
  match BookingStatus.ofValue r.status with
  | none => none
  | some st =>
    some {
      id := r.id
      from_station := r.from_station
      to_station := r.to_station
      date := r.date
      user_id := r.user_id
      adult_cnt := r.adult_cnt
      student_cnt := r.student_cnt
      child_cnt := r.child_cnt
      senior_cnt := r.senior_cnt
      disabled_cnt := r.disabled_cnt
      time := r.time
      train_index := r.train_index
      seat_prefer := r.seat_prefer
      class_type := r.class_type
      personal_id := r.personal_id
      use_membership := r.use_membership
      no_ocr := r.no_ocr
      interval_minutes := r.interval_minutes
      max_attempts := r.max_attempts
      status := st
      created_at := fromisoformat (normalizeWire r.created_at)
      last_attempt := r.last_attempt.map (fun w => fromisoformat (normalizeWire w))
      attempts := r.attempts
      success_pnr := r.success_pnr
      error_message := r.error_message }

/-! ## Concrete sample values used to instantiate theorems -/

/-- Reference "today" used in concrete instantiations: 2026-10-12 (UTC). -/
def refToday : Date := ⟨2026, 10, 12⟩

/-- A later "today" for later-cycle instantiations: 2026-12-01 (UTC). -/
def refLater : Date := ⟨2026, 12, 1⟩

/-- A concrete pending task owned by `alice`, travel date in the future
relative to `refToday`. -/
def samplePending : BookingTask :=
  { id := "t1", from_station := 1, to_station := 2, date := "2026/10/20",
    user_id := some "alice", adult_cnt := some 1,
    personal_id := some "A123456789", use_membership := some false,
    attempts := 3, last_attempt := some 500 }

/-- The same task after a successful attempt (terminal SUCCESS copy). -/
def sampleSuccess : BookingTask :=
  { samplePending with
      status := .success
      success_pnr := some "ABC123"
      attempts := 1
      last_attempt := some 100 }

/-- A task whose travel date (2026-10-01) lies strictly before `refToday`. -/
def samplePastDate : BookingTask :=
  { id := "t2", from_station := 1, to_station := 2, date := "2026/10/01",
    user_id := some "alice", attempts := 0 }

/-- A fresh, never-attempted task (no `last_attempt`). -/
def sampleFresh : BookingTask :=
  { id := "t3", from_station := 1, to_station := 2, date := "2026/10/20",
    user_id := some "alice", interval_minutes := 5, attempts := 0,
    last_attempt := none }

/-- A soft-deleted task that was never attempted (`last_attempt` absent). -/
def sampleDeletedNoAttempt : BookingTask :=
  { id := "d1", from_station := 3, to_station := 4, date := "2026/11/01",
    status := .deleted, last_attempt := none }

/-- Creation parameters whose travel date equals `refToday`. -/
def paramsToday : CreateParams :=
  { from_station := 1, to_station := 2, date := "2026/10/12",
    personal_id := "A123456789", use_membership := some false,
    adult_cnt := some 1 }

/-- Creation parameters with a strictly future travel date. -/
def paramsFuture : CreateParams :=
  { paramsToday with date := "2026/10/20" }

/-- The task `create_booking_task` builds from `paramsFuture` with fresh id
`"id1"` and creation instant `0`. -/
def createdFuture : BookingTask :=
  { id := "id1", from_station := 1, to_station := 2, date := "2026/10/20",
    personal_id := some "A123456789", use_membership := some false,
    adult_cnt := some 1, created_at := 0 }

/-! ## Helper lemmas -/

/-- Updating an existing key and looking it up yields the new value. -/
theorem lookupTask_updateTask (tasks : TaskMap) (tid : String) (t : BookingTask)
    (h : ¬ lookupTask tasks tid = none) :
    lookupTask (updateTask tasks tid t) tid = some t := by
  induction tasks with
  | nil => simp [lookupTask] at h
  | cons kv rest ih =>
    obtain ⟨k, v⟩ := kv
    by_cases hk : k = tid
    · simp [lookupTask, updateTask, hk]
    · simp only [lookupTask, updateTask, hk, if_false] at h ⊢
      exact ih h

/-- A single conflict merge never lowers the attempts counter below the
in-memory value. -/
theorem mergeTask_attempts_le (mem disk : BookingTask) :
    mem.attempts ≤ (mergeTask mem disk).attempts := by
  unfold mergeTask
  split
  · exact le_refl _
  · split
    · exact le_refl _
    · rename_i hcond
      simp only [Bool.or_eq_true, decide_eq_true_eq, not_or] at hcond
      omega

/-- Looking up the status string produced by `BookingStatus.value`
recovers the status. -/
theorem ofValue_value (s : BookingStatus) :
    BookingStatus.ofValue s.value = some s := by
  cases s <;> rfl

/-- Lexicographic date order: `<` then `≤` gives `<`. -/
theorem Date_lt_of_lt_of_le {a b c : Date} (h1 : Date.lt a b = true)
    (h2 : Date.le b c = true) : Date.lt a c = true := by
  simp only [Date.lt, Date.le, Bool.or_eq_true, Bool.and_eq_true,
    decide_eq_true_eq] at h1 h2 ⊢
  omega

/-- A task expired at one date stays expired at every later date. -/
theorem is_expired_mono {t : BookingTask} {d1 d2 : Date}
    (h : t.is_expired d1 = true) (hle : Date.le d1 d2 = true) :
    t.is_expired d2 = true := by
  unfold BookingTask.is_expired at h ⊢
  cases hp : strptimeYmd t.date with
  | none => rw [hp] at h; exact Bool.noConfusion h
  | some d => rw [hp] at h; exact Date_lt_of_lt_of_le h hle

/-! ## Claims -/

/-- C1: in the save-time conflict merge, an in-memory task in a terminal
outcome status (SUCCESS, CANCELLED, DELETED) always wins over the on-disk
copy; in particular an in-memory SUCCESS beats an on-disk PENDING. -/
theorem merge_keeps_terminal_in_memory (mem disk : BookingTask)
    (h : isTerminalOutcome mem.status = true) :
    mergeTask mem disk = mem ∧
      (mem.status = .success → disk.status = .pending →
        (mergeTask mem disk).status = .success) := by
  have hm : mergeTask mem disk = mem := by unfold mergeTask; rw [if_pos h]
  exact ⟨hm, fun hs _ => by rw [hm]; exact hs⟩

/-- C1 witness: the in-memory SUCCESS copy of the sample task wins over
the on-disk PENDING copy. -/
theorem merge_keeps_terminal_in_memory_witness :
    isTerminalOutcome sampleSuccess.status = true ∧
      sampleSuccess.status = BookingStatus.success ∧
      samplePending.status = BookingStatus.pending ∧
      mergeTask sampleSuccess samplePending = sampleSuccess :=
  ⟨by decide, by decide, by decide,
    (merge_keeps_terminal_in_memory sampleSuccess samplePending (by decide)).1⟩

/-- C2: across any sequence of save-time conflict merges (each against an
arbitrary on-disk snapshot), the attempts counter of the held/stored task
never drops below the value held before the sequence; a conflict-free save
stores the held value verbatim and a load leaves the stored value
untouched, so no merge or save reduces the stored attempts below the value
held going in. -/
theorem merge_attempts_nondecreasing (mem : BookingTask)
    (disks : List BookingTask) :
    mem.attempts ≤ (List.foldl mergeTask mem disks).attempts := by
  induction disks generalizing mem with
  | nil => exact le_refl _
  | cons d ds ih =>
    simp only [List.foldl_cons]
    exact le_trans (mergeTask_attempts_le mem d) (ih (mergeTask mem d))

/-- C3 counterexample: `cancel_task` on a task already in the terminal
status SUCCESS (called by its owner) sets the status to CANCELLED — the
terminal SUCCESS value is *not* kept. -/
theorem cancel_overwrites_success_counterexample :
    sampleSuccess.status = BookingStatus.success ∧
      (cancel_task [("t1", sampleSuccess)] "t1" (some "alice")).2 = true ∧
      (lookupTask (cancel_task [("t1", sampleSuccess)] "t1" (some "alice")).1
            "t1").map BookingTask.status = some BookingStatus.cancelled := by
  decide

/-- C3 (amended): the explicit cancel call transitions every found,
ownership-authorized task to CANCELLED regardless of its prior status —
terminal statuses included, so a SUCCESS task becomes CANCELLED rather
than staying SUCCESS. -/
theorem cancel_task_cancels_any_found (tasks : TaskMap) (tid : String)
    (uid : Option String) (task : BookingTask)
    (hfind : lookupTask tasks tid = some task)
    (hown : ownerMismatch uid task = false) :
    (cancel_task tasks tid uid).2 = true ∧
      lookupTask (cancel_task tasks tid uid).1 tid =
        some { task with status := .cancelled } := by
  unfold cancel_task
  rw [hfind]
  simp only [hown, Bool.false_eq_true, if_false]
  refine ⟨by trivial, ?_⟩
  exact lookupTask_updateTask tasks tid _ (by rw [hfind]; simp)

/-- C3 amended-claim witness: the owner cancels the sample SUCCESS task;
the call returns `True` and the stored status is CANCELLED. -/
theorem cancel_task_cancels_any_found_witness :
    lookupTask [("t1", sampleSuccess)] "t1" = some sampleSuccess ∧
      ownerMismatch (some "alice") sampleSuccess = false ∧
      ((cancel_task [("t1", sampleSuccess)] "t1" (some "alice")).2 = true ∧
        lookupTask (cancel_task [("t1", sampleSuccess)] "t1" (some "alice")).1
            "t1" = some { sampleSuccess with status := .cancelled }) :=
  ⟨by decide, by decide,
    cancel_task_cancels_any_found [("t1", sampleSuccess)] "t1" (some "alice")
      sampleSuccess (by decide) (by decide)⟩

/-- C6: `is_expired` is true exactly when the travel date parses under
`%Y/%m/%d` and the parsed date is strictly before today; in particular it
is false for today, for future dates, and for every malformed date
string. -/
theorem is_expired_iff_parsed_date_past (t : BookingTask) (today : Date) :
    t.is_expired today = true ↔
      ∃ d, strptimeYmd t.date = some d ∧ Date.lt d today = true := by
  unfold BookingTask.is_expired
  cases h : strptimeYmd t.date <;> simp [h]

/-- C7: `from_dict` inverts `to_dict` exactly, for every field including
the nullable/absent ones. -/
theorem from_dict_to_dict_round_trip (t : BookingTask) :
    BookingTask.from_dict (BookingTask.to_dict t) = some t := by
  unfold BookingTask.from_dict BookingTask.to_dict
  rw [ofValue_value]
  have hmap : ∀ o : Option Int,
      (o.map (fun la => replaceOffsetWithZ (isoformatUtc la))).map
          (fun w => fromisoformat (normalizeWire w)) = o := by
    intro o; cases o <;> rfl
  simp only [hmap]
  rfl

/-- C8: a cancel or remove call whose `user_id` does not match the task's
owner returns `False` and leaves the whole task map unchanged (so nothing
new is persisted). -/
theorem owner_mismatch_rejects_unchanged (tasks : TaskMap) (tid uid : String)
    (task : BookingTask)
    (hfind : lookupTask tasks tid = some task)
    (hmis : ¬ task.user_id = some uid) :
    cancel_task tasks tid (some uid) = (tasks, false) ∧
      remove_task tasks tid (some uid) = (tasks, false) := by
  have hm : ownerMismatch (some uid) task = true := by
    simp [ownerMismatch, hmis]
  constructor
  · unfold cancel_task; rw [hfind]; simp [hm]
  · unfold remove_task; rw [hfind]; simp [hm]

/-- C8 witness: `bob` cancelling/removing `alice`'s task is rejected with
`False` and the map is untouched. -/
theorem owner_mismatch_rejects_unchanged_witness :
    lookupTask [("t1", samplePending)] "t1" = some samplePending ∧
      ¬ samplePending.user_id = some "bob" ∧
      (cancel_task [("t1", samplePending)] "t1" (some "bob") =
          ([("t1", samplePending)], false) ∧
        remove_task [("t1", samplePending)] "t1" (some "bob") =
          ([("t1", samplePending)], false)) :=
  ⟨by decide, by decide,
    owner_mismatch_rejects_unchanged [("t1", samplePending)] "t1" "bob"
      samplePending (by decide) (by decide)⟩

/-- C10: the deleted-task cleanup sweep never removes a DELETED task whose
`last_attempt` is absent, no matter how old it is; a task is removed only
if it is DELETED and its `last_attempt` is older than the one-hour
cutoff. -/
theorem cleanup_purges_only_stale_deleted (now : Int) (lc : Option Int)
    (tasks : TaskMap) :
    (∀ tid t, (tid, t) ∈ tasks → t.status = .deleted → t.last_attempt = none →
        (tid, t) ∈ (cleanup_deleted_tasks now lc tasks).1) ∧
    (∀ tid t, (tid, t) ∈ tasks →
        ¬ (tid, t) ∈ (cleanup_deleted_tasks now lc tasks).1 →
        t.status = .deleted ∧
          ∃ la, t.last_attempt = some la ∧ la < now - 3600) := by
  cases lc with
  | none =>
    exact ⟨fun _ _ h _ _ => h, fun _ _ h1 h2 => absurd h1 h2⟩
  | some c =>
    by_cases hlt : now - c < 3600
    · simp only [cleanup_deleted_tasks, if_pos hlt]
      exact ⟨fun _ _ h _ _ => h, fun _ _ h1 h2 => absurd h1 h2⟩
    · simp only [cleanup_deleted_tasks, if_neg hlt]
      constructor
      · intro tid t hmem _ hla
        simp only [List.mem_filter]
        refine ⟨hmem, ?_⟩
        simp [purgeDeleted, hla]
      · intro tid t hmem hnotin
        simp only [List.mem_filter, hmem, true_and] at hnotin
        have hp : purgeDeleted now t = true := by
          by_contra hfalse
          exact hnotin (by simp [hfalse])
        simp only [purgeDeleted, Bool.and_eq_true, decide_eq_true_eq] at hp
        refine ⟨hp.1, ?_⟩
        cases hla : t.last_attempt with
        | none => rw [hla] at hp; exact absurd hp.2 (by simp)
        | some la =>
          rw [hla] at hp
          exact ⟨la, rfl, by simpa using hp.2⟩

/-- C10 witness: a DELETED task with no `last_attempt` survives an active
(purging) sweep. -/
theorem cleanup_purges_only_stale_deleted_witness :
    ("d1", sampleDeletedNoAttempt) ∈
      (cleanup_deleted_tasks 10000 (some 0)
          [("d1", sampleDeletedNoAttempt)]).1 :=
  (cleanup_purges_only_stale_deleted 10000 (some 0) _).1 "d1"
    sampleDeletedNoAttempt (by decide) (by decide) (by decide)

/-- C4: per scan cycle, terminal-outcome tasks are skipped unchanged;
for the rest, expiry is evaluated before the attempt limit, the attempt
limit before the sale-window gate, and the sale-window gate before the
due-time check; consequently an expired task is marked EXPIRED without
consulting the sale window, and in every later cycle (any clock, any
sale-window oracle) it stays EXPIRED — it is never moved to WAITING or
PENDING. -/
theorem scan_order_and_expiry_precedence (today later : Date) (now now2 : Int)
    (so so2 : String → Bool) (task : BookingTask) :
    (isTerminalOutcome task.status = true →
      scan_step today now so task = (task, false)) ∧
    (isTerminalOutcome task.status = false → task.is_expired today = true →
      scan_step today now so task = ({ task with status := .expired }, false) ∧
      (Date.le today later = true →
        scan_step later now2 so2 { task with status := .expired } =
          ({ task with status := .expired }, false))) ∧
    (isTerminalOutcome task.status = false → task.is_expired today = false →
      task.should_stop today = true →
      scan_step today now so task =
        ({ task with status := .failed,
                     error_message := some "Maximum attempts reached" }, false)) ∧
    (isTerminalOutcome task.status = false → task.is_expired today = false →
      task.should_stop today = false → so task.date = false →
      (scan_step today now so task).1.status = .waiting ∧
        (scan_step today now so task).2 = false) := by
  refine ⟨?_, ?_, ?_, ?_⟩
  · intro hterm
    unfold scan_step
    rw [if_pos hterm]
  · intro hterm hexp
    constructor
    · simp [scan_step, hterm, hexp]
    · intro hle
      have hexp2 : BookingTask.is_expired { task with status := .expired } later = true :=
        is_expired_mono hexp hle
      simp [scan_step, isTerminalOutcome, hexp2]
  · intro hterm hexp hstop
    simp [scan_step, hterm, hexp, hstop]
  · intro hterm hexp hstop hopen
    by_cases hw : task.status = BookingStatus.waiting
    · simp [scan_step, hterm, hexp, hstop, hopen, hw]
    · simp [scan_step, hterm, hexp, hstop, hopen, hw]

/-- C4 witness: the sample task whose travel date (2026-10-01) precedes
`refToday` is marked EXPIRED on the current cycle and stays EXPIRED on a
later cycle even with the sale window open. -/
theorem scan_order_and_expiry_precedence_witness :
    isTerminalOutcome samplePastDate.status = false ∧
      samplePastDate.is_expired refToday = true ∧
      Date.le refToday refLater = true ∧
      scan_step refToday 1000 (fun _ => true) samplePastDate =
        ({ samplePastDate with status := .expired }, false) ∧
      scan_step refLater 2000 (fun _ => true)
          { samplePastDate with status := .expired } =
        ({ samplePastDate with status := .expired }, false) := by
  have h := (scan_order_and_expiry_precedence refToday refLater 1000 2000
      (fun _ => true) (fun _ => true) samplePastDate).2.1 (by decide) (by decide)
  exact ⟨by decide, by decide, by decide, h.1, h.2 (by decide)⟩

/-- C5: a task that reaches the due-time check (non-terminal, not expired,
not attempt-limited, sale window open) is due immediately when
`last_attempt` is absent, and otherwise due exactly when `now -
last_attempt ≥ interval_minutes` (in seconds); the state persisted before
the collaborator call is the scanned task with status RUNNING,
`last_attempt = now`, and `attempts` incremented by exactly one (the scan
itself leaves `attempts` untouched). -/
theorem due_task_execution_pre_state (today : Date) (now : Int)
    (so : String → Bool) (task : BookingTask)
    (hterm : isTerminalOutcome task.status = false)
    (hexp : task.is_expired today = false)
    (hstop : task.should_stop today = false)
    (hopen : so task.date = true) :
    (task.last_attempt = none → (scan_step today now so task).2 = true) ∧
    (∀ la, task.last_attempt = some la →
      ((scan_step today now so task).2 = true ↔
        now - la ≥ task.interval_minutes * 60)) ∧
    (∀ r, (execute_booking_task now (scan_step today now so task).1 r).1 =
      { (scan_step today now so task).1 with
          status := .running, last_attempt := some now,
          attempts := (scan_step today now so task).1.attempts + 1 }) ∧
    (scan_step today now so task).1.attempts = task.attempts := by
  by_cases hw : task.status = BookingStatus.waiting
  · refine ⟨?_, ?_, ?_, ?_⟩
    · intro hla; simp [scan_step, isTerminalOutcome, hterm, hexp, hstop, hopen, hw, hla]
    · intro la hla
      simp [scan_step, isTerminalOutcome, hterm, hexp, hstop, hopen, hw, hla]
    · intro r; rfl
    · simp [scan_step, isTerminalOutcome, hterm, hexp, hstop, hopen, hw]
  · refine ⟨?_, ?_, ?_, ?_⟩
    · intro hla; simp [scan_step, hterm, hexp, hstop, hopen, hw, hla]
    · intro la hla; simp [scan_step, hterm, hexp, hstop, hopen, hw, hla]
    · intro r; rfl
    · simp [scan_step, hterm, hexp, hstop, hopen, hw]

/-- C5 witness: the fresh sample task (no `last_attempt`) is due on the
first cycle that reaches it. -/
theorem due_task_execution_pre_state_witness :
    (isTerminalOutcome sampleFresh.status = false ∧
      sampleFresh.is_expired refToday = false ∧
      sampleFresh.should_stop refToday = false ∧
      sampleFresh.last_attempt = none) ∧
    (scan_step refToday 1000 (fun _ => true) sampleFresh).2 = true :=
  ⟨⟨by decide, by decide, by decide, rfl⟩,
    (due_task_execution_pre_state refToday 1000 (fun _ => true) sampleFresh
      (by decide) (by decide) (by decide) rfl).1 rfl⟩

/-- C9 counterexample: a travel date equal to the current date is *not*
rejected — validation only rejects dates strictly before today, so a task
whose travel date is today (not in the future) is successfully created. -/
theorem create_accepts_today_counterexample :
    paramsToday.date = "2026/10/12" ∧
      strptimeYmd paramsToday.date = some refToday ∧
      Date.lt refToday refToday = false ∧
      (create_booking_task refToday 0 "id1" paramsToday).isOk = true := by
  decide

/-- C9 (amended): task creation rejects, synchronously and before any task
is constructed, every travel date strictly earlier than the current date;
every successfully created task has a travel date that parses and is not
before today (a travel date equal to today is accepted). -/
theorem created_task_date_not_past (today : Date) (nowT : Int)
    (fid : String) (p : CreateParams) (task : BookingTask)
    (h : create_booking_task today nowT fid p = .ok task) :
    ∃ d, strptimeYmd task.date = some d ∧ Date.lt d today = false := by
  unfold create_booking_task at h
  by_cases h1 : pyStrip p.personal_id = ""
  · rw [if_pos h1] at h; exact Except.noConfusion h
  rw [if_neg h1] at h
  by_cases h2 : p.use_membership = none
  · rw [if_pos h2] at h; exact Except.noConfusion h
  rw [if_neg h2] at h
  by_cases h3 : ¬ (1 ≤ p.from_station ∧ p.from_station ≤ stationCount)
  · rw [if_pos h3] at h; exact Except.noConfusion h
  rw [if_neg h3] at h
  by_cases h4 : ¬ (1 ≤ p.to_station ∧ p.to_station ≤ stationCount)
  · rw [if_pos h4] at h; exact Except.noConfusion h
  rw [if_neg h4] at h
  by_cases h5 : p.from_station = p.to_station
  · rw [if_pos h5] at h; exact Except.noConfusion h
  rw [if_neg h5] at h
  cases hdate : strptimeYmd p.date with
  | none => simp only [hdate] at h; exact Except.noConfusion h
  | some booking_date =>
    simp only [hdate] at h
    by_cases h6 : Date.lt booking_date today = true
    · rw [if_pos h6] at h; exact Except.noConfusion h
    rw [if_neg h6] at h
    simp only [optOk] at h
    by_cases c7 : p.adult_cnt.getD 0 + p.student_cnt.getD 0 + p.child_cnt.getD 0 +
        p.senior_cnt.getD 0 + p.disabled_cnt.getD 0 = 0
    · rw [if_pos c7] at h; exact Except.noConfusion h
    rw [if_neg c7] at h
    by_cases c8 : p.adult_cnt.getD 0 + p.student_cnt.getD 0 + p.child_cnt.getD 0 +
        p.senior_cnt.getD 0 + p.disabled_cnt.getD 0 > 10
    · rw [if_pos c8] at h; exact Except.noConfusion h
    rw [if_neg c8] at h
    by_cases c9 : (match p.adult_cnt with
        | some c => decide (0 ≤ c) && decide (c ≤ 10)
        | none => true) = true
    swap
    · rw [if_pos c9] at h; exact Except.noConfusion h
    rw [if_neg (not_not_intro c9)] at h
    by_cases c10 : (match p.student_cnt with
        | some c => decide (0 ≤ c) && decide (c ≤ 10)
        | none => true) = true
    swap
    · rw [if_pos c10] at h; exact Except.noConfusion h
    rw [if_neg (not_not_intro c10)] at h
    by_cases c11 : (match p.child_cnt with
        | some c => decide (0 ≤ c) && decide (c ≤ 10)
        | none => true) = true
    swap
    · rw [if_pos c11] at h; exact Except.noConfusion h
    rw [if_neg (not_not_intro c11)] at h
    by_cases c12 : (match p.senior_cnt with
        | some c => decide (0 ≤ c) && decide (c ≤ 10)
        | none => true) = true
    swap
    · rw [if_pos c12] at h; exact Except.noConfusion h
    rw [if_neg (not_not_intro c12)] at h
    by_cases c13 : (match p.disabled_cnt with
        | some c => decide (0 ≤ c) && decide (c ≤ 10)
        | none => true) = true
    swap
    · rw [if_pos c13] at h; exact Except.noConfusion h
    rw [if_neg (not_not_intro c13)] at h
    by_cases c14 : (match p.time with
        | some ti => decide (1 ≤ ti) && decide (ti ≤ timeTableCount)
        | none => true) = true
    swap
    · rw [if_pos c14] at h; exact Except.noConfusion h
    rw [if_neg (not_not_intro c14)] at h
    by_cases c15 : (match p.train_index with
        | some ix => decide (1 ≤ ix)
        | none => true) = true
    swap
    · rw [if_pos c15] at h; exact Except.noConfusion h
    rw [if_neg (not_not_intro c15)] at h
    by_cases c16 : (match p.seat_prefer with
        | some sp => decide (sp = 0) || decide (sp = 1) || decide (sp = 2)
        | none => true) = true
    swap
    · rw [if_pos c16] at h; exact Except.noConfusion h
    rw [if_neg (not_not_intro c16)] at h
    by_cases c17 : (match p.class_type with
        | some ct => decide (ct = 0) || decide (ct = 1)
        | none => true) = true
    swap
    · rw [if_pos c17] at h; exact Except.noConfusion h
    rw [if_neg (not_not_intro c17)] at h
    by_cases c18 : p.interval_minutes < 1
    · rw [if_pos c18] at h; exact Except.noConfusion h
    rw [if_neg c18] at h
    by_cases c19 : p.interval_minutes > 60
    · rw [if_pos c19] at h; exact Except.noConfusion h
    rw [if_neg c19] at h
    by_cases c20 : (pyUpper (pyStrip p.personal_id)).length = 10
    swap
    · rw [if_pos c20] at h; exact Except.noConfusion h
    rw [if_neg (not_not_intro c20)] at h
    injection h with h
    subst h
    exact ⟨booking_date, hdate, by simpa using h6⟩

/-- C9 amended-claim witness: creation with the strictly future date
2026/10/20 succeeds and the created task's date is not before
`refToday`. -/
theorem created_task_date_not_past_witness :
    ∃ d, strptimeYmd createdFuture.date = some d ∧
      Date.lt d refToday = false :=
  created_task_date_not_past refToday 0 "id1" paramsFuture createdFuture rfl

end THSR
